import Mathlib

/-!
Formal model of the EcoRide ride-hailing server's identity and session
subsystem: the authentication controller (login, register, legacy phone
auth, token refresh, profile read/update), the admin-login route, and the
administrative moderation controller (listing, approval, disapproval,
update, delete).

The credential store is modelled as a list of user documents; Mongoose
queries become list searches.  Request-body fields are `Option String`
(`none` = the JSON field is absent / `undefined`), and JavaScript string
truthiness is `some s` with `s` non-empty.  Password hashing and JWT
signing are external collaborators, so password verification and refresh
token verification are taken as function parameters.
-/

namespace EcoRide

/- ### JavaScript string primitives

`jsTrim`/`jsToUpper` model `String.prototype.trim`/`toUpperCase` (ASCII
range, which covers every string the server manipulates), and
`ciContains` models a case-insensitive regular-expression match where the
pattern is a plain literal (no metacharacters), i.e. case-insensitive
substring search. -/

def upperChar (c : Char) : Char :=
  if 'a' ≤ c ∧ c ≤ 'z' then Char.ofNat (c.toNat - 32) else c

def jsToUpper (s : String) : String :=
  ⟨s.data.map upperChar⟩

def trimL (l : List Char) : List Char :=
  l.dropWhile Char.isWhitespace

def jsTrim (s : String) : String :=
  ⟨(trimL ((trimL s.data).reverse)).reverse⟩

def isPrefixC : List Char → List Char → Bool
  | [], _ => true
  | _ :: _, [] => false
  | a :: as, b :: bs => a == b && isPrefixC as bs

def isSubC (needle : List Char) : List Char → Bool
  | [] => isPrefixC needle []
  | b :: bs => isPrefixC needle (b :: bs) || isSubC needle bs

def ciContains (hay pat : String) : Bool :=
  isSubC (jsToUpper pat).data (jsToUpper hay).data

/-- JavaScript truthiness of an optional string request field:
`undefined` and the empty string are falsy. -/
def truthy : Option String → Bool
  | none => false
  | some s => s != ""

/- ### Data model -/

/-- A persisted user document (the Account entity).  `id` models the
Mongo `_id`; profile fields that a document may lack are `Option`s. -/
structure UserRec where
  id : Nat
  email : String
  password : String
  role : String
  firstName : Option String
  middleName : Option String
  lastName : Option String
  phone : Option String
  schoolId : Option String
  licenseId : Option String
  sex : Option String
  approved : Bool
  status : String
  disapprovalReason : Option String
  createdAt : Nat
deriving DecidableEq

inductive TokenKind where
  | access
  | refresh
deriving DecidableEq

/-- A signed JWT; the only embedded claim is the user id, and the two
token kinds are signed with distinct secrets (modelled by the tag). -/
structure Token where
  userId : Nat
  kind : TokenKind
deriving DecidableEq

def createAccessToken (u : UserRec) : Token :=
  ⟨u.id, TokenKind.access⟩

def createRefreshToken (u : UserRec) : Token :=
  ⟨u.id, TokenKind.refresh⟩

/-- Errors thrown by the controllers (`errors/index.js`). -/
inductive AppError where
  | badRequest (msg : String)
  | unauthenticated (msg : String)
  | notFound (msg : String)
deriving DecidableEq

def AppError.message : AppError → String
  | .badRequest m => m
  | .unauthenticated m => m
  | .notFound m => m

/- ### Credential store queries -/

/-- Model of `User.findOne({ email, role })`. -/
def findOneEmailRole : List UserRec → String → String → Option UserRec
  | [], _, _ => none
  | u :: t, e, r => if u.email == e && u.role == r then some u else findOneEmailRole t e r

/-- Model of `User.findOne({ email })`. -/
def findOneEmail : List UserRec → String → Option UserRec
  | [], _ => none
  | u :: t, e => if u.email == e then some u else findOneEmail t e

/-- Model of `User.findOne({ phone })`. -/
def findByPhone : List UserRec → String → Option UserRec
  | [], _ => none
  | u :: t, p => if u.phone == some p then some u else findByPhone t p

/-- Model of `User.findById(id)`. -/
def findById : List UserRec → Nat → Option UserRec
  | [], _ => none
  | u :: t, uid => if u.id == uid then some u else findById t uid

/-- Model of `User.findOne({ email, _id: { $ne: uid } })`: a user with this email
other than the one being updated. -/
def findOneEmailExcept : List UserRec → String → Nat → Option UserRec
  | [], _, _ => none
  | u :: t, e, uid =>
    if u.email == e && u.id != uid then some u else findOneEmailExcept t e uid

/-- Model of `user.save()` on a fetched document: replace the stored document(s)
carrying this id. -/
def saveUser (db : List UserRec) (w : UserRec) : List UserRec :=
  db.map (fun v => if v.id == w.id then w else v)

/- ### login (controllers/auth.js, lines 12-80) -/

inductive LoginResult where
  /-- A thrown `BadRequestError` / `UnauthenticatedError`, translated by
  the boundary error handler. -/
  | err (e : AppError)
  /-- The 403 approval-gate response `{message, status, isApproved}`. -/
  | forbidden (message status : String) (isApproved : Bool)
  /-- The 200 response `{message, user, access_token, refresh_token}`. -/
  | ok (user : UserRec) (access refresh : Token)
deriving DecidableEq

/-- The `login` controller.  `verify plaintext digest` is the opaque
`comparePassword` capability of the user model. -/
def login (verify : String → String → Bool) (db : List UserRec)
    (email password role : Option String) : LoginResult :=
  if !truthy email || !truthy password then
    .err (.badRequest "Please provide email and password")
  else if !(truthy role && ["customer", "rider", "admin"].contains (role.getD "")) then
    .err (.badRequest "Valid role is required (customer, rider, or admin)")
  else
    let e := email.getD ""
    let p := password.getD ""
    let r := role.getD ""
    match findOneEmailRole db e r with
    | none => .err (.unauthenticated "Invalid credentials")
    | some user =>
      if !(verify p user.password) then
        .err (.unauthenticated "Invalid credentials")
      else if r != "admin" && user.status == "disapproved" then
        .forbidden "Your account has been disapproved. Please contact support for assistance."
          "disapproved" false
      else if r != "admin" && user.status == "pending" then
        .forbidden "Your account is pending approval. Please wait for an administrator to approve your account."
          "pending" false
      else
        .ok user (createAccessToken user) (createRefreshToken user)

/-- C1: on the public login operation, for every validated
(email, password, role) input with a role in customer/rider/admin, the
absent-account case and the wrong-password case produce the one
`UnauthenticatedError` with the identical message "Invalid credentials",
so the response does not distinguish a non-existent (email, role) account
from a wrong password. -/
theorem login_invalid_credentials_uniform
    (verify : String → String → Bool) (db : List UserRec) (e p r : String)
    (he : e ≠ "") (hp : p ≠ "")
    (hr : r = "customer" ∨ r = "rider" ∨ r = "admin") :
    (findOneEmailRole db e r = none →
      login verify db (some e) (some p) (some r) =
        .err (.unauthenticated "Invalid credentials")) ∧
    (∀ u, findOneEmailRole db e r = some u → verify p u.password = false →
      login verify db (some e) (some p) (some r) =
        .err (.unauthenticated "Invalid credentials")) := by
  constructor
  · intro hfind
    rcases hr with h | h | h <;> subst h <;>
      simp [login, truthy, he, hp, hfind]
  · intro u hfind hverify
    rcases hr with h | h | h <;> subst h <;>
      simp [login, truthy, he, hp, hfind, hverify]

theorem login_invalid_credentials_uniform_witness :
    login (fun p d => p == d) [] (some "ana@x.com") (some "pw") (some "customer") =
      .err (.unauthenticated "Invalid credentials") :=
  (login_invalid_credentials_uniform (fun p d => p == d) [] "ana@x.com" "pw" "customer"
    (by decide) (by decide) (Or.inl rfl)).1 rfl

/-- C2: on login, once the credential check has succeeded, a non-admin
role with status "disapproved" or "pending" gets the 403 forbidden result
carrying that distinguishable status and `isApproved := false` (a result
with no tokens), while the admin role skips the status check entirely and
receives tokens whatever the stored status is. -/
theorem login_approval_gate
    (verify : String → String → Bool) (db : List UserRec) (e p r : String)
    (u : UserRec) (he : e ≠ "") (hp : p ≠ "")
    (hr : r = "customer" ∨ r = "rider" ∨ r = "admin")
    (hfind : findOneEmailRole db e r = some u)
    (hpw : verify p u.password = true) :
    (r ≠ "admin" → u.status = "disapproved" →
      login verify db (some e) (some p) (some r) =
        .forbidden "Your account has been disapproved. Please contact support for assistance."
          "disapproved" false) ∧
    (r ≠ "admin" → u.status = "pending" →
      login verify db (some e) (some p) (some r) =
        .forbidden "Your account is pending approval. Please wait for an administrator to approve your account."
          "pending" false) ∧
    (r = "admin" →
      login verify db (some e) (some p) (some r) =
        .ok u (createAccessToken u) (createRefreshToken u)) := by
  refine ⟨?_, ?_, ?_⟩
  · intro hradm hst
    rcases hr with h | h | h <;> subst h <;>
      simp_all [login, truthy, he, hp, hfind, hpw]
  · intro hradm hst
    rcases hr with h | h | h <;> subst h <;>
      simp_all [login, truthy, he, hp, hfind, hpw]
  · intro hradm
    subst hradm
    simp [login, truthy, he, hp, hfind, hpw]

def adminEve : UserRec :=
  { id := 9, email := "eve@x.com", password := "hash9", role := "admin",
    firstName := some "Eve", middleName := none, lastName := some "Ops",
    phone := some "0900", schoolId := none, licenseId := none,
    sex := some "F", approved := false, status := "pending",
    disapprovalReason := none, createdAt := 1 }

theorem login_approval_gate_witness :
    login (fun p d => p == d) [adminEve] (some "eve@x.com") (some "hash9") (some "admin") =
      .ok adminEve (createAccessToken adminEve) (createRefreshToken adminEve) :=
  (login_approval_gate (fun p d => p == d) [adminEve] "eve@x.com" "hash9" "admin" adminEve
    (by decide) (by decide) (Or.inr (Or.inr rfl)) (by decide) (by decide)).2.2 rfl

/- ### register (controllers/auth.js, lines 83-157) -/

structure RegisterBody where
  email : Option String := none
  password : Option String := none
  role : Option String := none
  firstName : Option String := none
  middleName : Option String := none
  lastName : Option String := none
  phone : Option String := none
  schoolId : Option String := none
  licenseId : Option String := none
  sex : Option String := none
deriving DecidableEq

/-- The 201 registration response: `{message, user, access_token,
refresh_token, isApproved: false, status: "pending"}` with constant
message/flags. -/
structure RegisterOk where
  user : UserRec
  access : Token
  refresh : Token
deriving DecidableEq

/-- The user document built by `new User({...})` at registration
(auth.js, lines 124-137): body fields carried over, `approved := false`,
`status := "pending"`; `lic` is the formatted licenseId. -/
def newUserDoc (b : RegisterBody) (newId ts : Nat) (lic : Option String) : UserRec :=
  { id := newId, email := b.email.getD "", password := b.password.getD "",
    role := b.role.getD "", firstName := b.firstName, middleName := b.middleName,
    lastName := b.lastName, phone := b.phone, schoolId := b.schoolId,
    licenseId := lic, sex := b.sex, approved := false, status := "pending",
    disapprovalReason := none, createdAt := ts }

/-- The `register` controller.  `newId`/`ts` stand for the store-assigned
document id and creation timestamp. -/
def register (db : List UserRec) (newId ts : Nat) (b : RegisterBody) :
    Except AppError (List UserRec × RegisterOk) :=
  if !truthy b.email || !truthy b.password then
    .error (.badRequest "Please provide email and password")
  else if !(truthy b.role && ["customer", "rider"].contains (b.role.getD "")) then
    .error (.badRequest "Valid role is required (customer or rider)")
  else
    match findOneEmail db (b.email.getD "") with
    | some _ => .error (.badRequest "Email already in use")
    | none =>
      let role := b.role.getD ""
      let fmt : Except AppError (Option String) :=
        if role == "rider" && truthy b.licenseId then
          let f := jsToUpper (jsTrim (b.licenseId.getD ""))
          if f.length < 4 then
            .error (.badRequest "License ID must be at least 4 characters")
          else
            .ok (some f)
        else
          .ok b.licenseId
      match fmt with
      | .error err => .error err
      | .ok formattedLicenseId =>
        let user := newUserDoc b newId ts formattedLicenseId
        .ok (db ++ [user], ⟨user, createAccessToken user, createRefreshToken user⟩)

/- ### Legacy phone auth (controllers/auth.js, lines 160-235) -/

/-- The user sub-object of the new-account 403 response: exactly
`{_id, phone, role}`. -/
structure SlimUser where
  id : Nat
  phone : String
  role : String
deriving DecidableEq

inductive AuthResult where
  /-- A thrown error, translated by the boundary error handler. -/
  | err (e : AppError)
  /-- The 403 approval-gate response for an existing account:
  `{message, status, isApproved}` (no user object). -/
  | forbiddenStatus (message status : String) (isApproved : Bool)
  /-- The 403 first-contact response for a freshly created account:
  `{message, status, isApproved, user: {_id, phone, role}}`. -/
  | pendingNew (message status : String) (isApproved : Bool) (user : SlimUser)
  /-- The 200 response `{message, user, access_token, refresh_token}`. -/
  | ok (user : UserRec) (access refresh : Token)
deriving DecidableEq

/-- The user document created on legacy first contact (auth.js, lines
207-216): synthesized placeholder email, throwaway random password,
`approved := false`, `status := "pending"`. -/
def legacyNewUser (p r randomPwd : String) (newId ts : Nat) : UserRec :=
  { id := newId, email := p ++ "@temp.ecoride.com", password := randomPwd,
    role := r, firstName := none, middleName := none, lastName := none,
    phone := some p, schoolId := none, licenseId := none, sex := none,
    approved := false, status := "pending",
    disapprovalReason := none, createdAt := ts }

/-- The legacy `auth` controller.  `randomPwd` stands for the throwaway
password built from `Math.random()`; it returns the result together with
the possibly-extended store. -/
def auth (randomPwd : String) (newId ts : Nat) (db : List UserRec)
    (phone role : Option String) : AuthResult × List UserRec :=
  if !truthy phone then
    (.err (.badRequest "Phone number is required"), db)
  else if !(truthy role && ["customer", "rider"].contains (role.getD "")) then
    (.err (.badRequest "Valid role is required (customer or rider)"), db)
  else
    let p := phone.getD ""
    let r := role.getD ""
    match findByPhone db p with
    | some user =>
      if user.role != r then
        (.err (.badRequest "Phone number and role do not match"), db)
      else if user.status == "disapproved" then
        (.forbiddenStatus "Your account has been disapproved. Please contact support for assistance."
          "disapproved" false, db)
      else if user.status == "pending" then
        (.forbiddenStatus "Your account is pending approval. Please wait for an administrator to approve your account."
          "pending" false, db)
      else
        (.ok user (createAccessToken user) (createRefreshToken user), db)
    | none =>
      let user := legacyNewUser p r randomPwd newId ts
      (.pendingNew "Account pending approval" "pending" false ⟨user.id, p, r⟩,
        db ++ [user])

/- ### refreshToken (controllers/auth.js, lines 237-262) -/

/-- The `refreshToken` controller.  `verifyRefresh` is `jwt.verify` with
the refresh secret, returning the embedded user id on success and `none`
on any verification failure (bad signature, expiry, malformed token).
The controller's catch block rethrows every failure inside the try —
including the user-no-longer-exists error — as the same
`UnauthenticatedError`. -/
def refreshToken (verifyRefresh : String → Option Nat) (db : List UserRec)
    (refresh_token : Option String) : Except AppError (Token × Token) :=
  if !truthy refresh_token then
    .error (.badRequest "Refresh token is required")
  else
    match verifyRefresh (refresh_token.getD "") with
    | none => .error (.unauthenticated "Invalid refresh token")
    | some uid =>
      match findById db uid with
      | none => .error (.unauthenticated "Invalid refresh token")
      | some user => .ok (createAccessToken user, createRefreshToken user)

/- ### Profile read/update (controllers/auth.js, lines 265-339) -/

/-- The `getUserProfile` controller: `findById` with the middleware-attached identity,
`select('-password')` on the way out. -/
def getUserProfile (db : List UserRec) (reqUserId : Nat) : Except AppError UserRec :=
  match findById db reqUserId with
  | none => .error (.unauthenticated "User not found")
  | some u => .ok u

structure ProfileBody where
  firstName : Option String := none
  middleName : Option String := none
  lastName : Option String := none
  phone : Option String := none
  schoolId : Option String := none
  licenseId : Option String := none
  email : Option String := none
  sex : Option String := none
deriving DecidableEq

/-- Model of `if (field) user.field = field`: update only on a truthy value. -/
def applyTruthy (cur v : Option String) : Option String :=
  if truthy v then v else cur

/-- Model of `if (field !== undefined) user.field = field`: update whenever the
field is present, including an empty string. -/
def applyPresent (cur v : Option String) : Option String :=
  match v with
  | some x => some x
  | none => cur

/-- The `updateUserProfile` controller.  The sequential per-field
assignments of the source write pairwise-distinct fields, so they are
modelled as one simultaneous record update; the fallible licenseId and
email steps keep their source order (an error thrown there aborts the
whole call before `save()`). -/
def updateUserProfile (db : List UserRec) (reqUserId : Nat) (b : ProfileBody) :
    Except AppError (List UserRec × UserRec) :=
  match findById db reqUserId with
  | none => .error (.unauthenticated "User not found")
  | some user0 =>
    let user5 : UserRec :=
      { user0 with
        firstName := applyTruthy user0.firstName b.firstName,
        middleName := applyPresent user0.middleName b.middleName,
        lastName := applyTruthy user0.lastName b.lastName,
        phone := applyTruthy user0.phone b.phone,
        schoolId := applyPresent user0.schoolId b.schoolId }
    let licStep : Except AppError UserRec :=
      match b.licenseId with
      | none => .ok user5
      | some v =>
        if user5.role == "rider" && v != "" then
          let f := jsToUpper (jsTrim v)
          if f.length < 4 then
            .error (.badRequest "License ID must be at least 4 characters")
          else
            .ok { user5 with licenseId := some f }
        else
          .ok { user5 with licenseId := some v }
    match licStep with
    | .error e => .error e
    | .ok user6 =>
      let user7 : UserRec := { user6 with sex := applyTruthy user6.sex b.sex }
      match b.email with
      | some e =>
        if e != "" then
          match findOneEmailExcept db e reqUserId with
          | some _ => .error (.badRequest "Email already in use")
          | none =>
            let user8 : UserRec := { user7 with email := e }
            .ok (saveUser db user8, user8)
        else
          .ok (saveUser db user7, user7)
      | none => .ok (saveUser db user7, user7)

/- ### Administrative moderation (controllers/admin.js) -/

/-- The value a query object holds under the `role` key: an exact match
or a `$ne` exclusion. -/
inductive RoleCond where
  | eq (r : String)
  | ne (r : String)
deriving DecidableEq

structure QueryObject where
  role : Option RoleCond
  approved : Option Bool
  search : Option String
deriving DecidableEq

/-- The `getAllUsers` query construction (admin.js, lines 9-35).  Note line
35: after the optional filters are installed, `queryObject.role` is
unconditionally reassigned to the `$ne: admin` exclusion, clobbering any
role filter stored at line 13. -/
def buildQuery (role approved search : Option String) : QueryObject :=
  let q : QueryObject := ⟨none, none, none⟩
  let q := if truthy role then { q with role := some (.eq (role.getD "")) } else q
  let q := if approved == some "true" then { q with approved := some true }
           else if approved == some "false" then { q with approved := some false }
           else q
  let q := if truthy search then { q with search := some (search.getD "") } else q
  { q with role := some (.ne "admin") }

def matchesRole : Option RoleCond → String → Bool
  | none, _ => true
  | some (.eq r), s => s == r
  | some (.ne r), s => s != r

/-- A case-insensitive pattern match against an optional stored field; a
document lacking the field does not match. -/
def matchOptField (pat : String) : Option String → Bool
  | none => false
  | some v => ciContains v pat

def matchesQuery (q : QueryObject) (u : UserRec) : Bool :=
  matchesRole q.role u.role &&
  (match q.approved with
   | none => true
   | some b => u.approved == b) &&
  (match q.search with
   | none => true
   | some s =>
     matchOptField s u.firstName || matchOptField s u.lastName ||
     ciContains u.email s || matchOptField s u.phone)

/-- Stable insertion keeping newer (larger `createdAt`) documents first. -/
def insertDesc (u : UserRec) : List UserRec → List UserRec
  | [] => [u]
  | v :: t => if u.createdAt ≤ v.createdAt then v :: insertDesc u t else u :: v :: t

/-- Model of `sort({ createdAt: -1 })`. -/
def sortByCreatedDesc : List UserRec → List UserRec
  | [] => []
  | u :: t => insertDesc u (sortByCreatedDesc t)

/-- The `getAllUsers` controller (admin.js, lines 6-52): filter by the
built query, newest first, passwords excluded at serialization. -/
def getAllUsers (db : List UserRec) (role approved search : Option String) :
    List UserRec :=
  sortByCreatedDesc (db.filter (matchesQuery (buildQuery role approved search)))

/-- The `getUserById` controller (admin.js, lines 55-78). -/
def getUserById (db : List UserRec) (uid : Nat) : Except AppError UserRec :=
  match findById db uid with
  | none => .error (.notFound ("No user found with id " ++ toString uid))
  | some u => .ok u

/-- The `approveUser` controller (admin.js, lines 81-112): set `status`
to "approved" and save; nothing else on the document is touched. -/
def approveUser (db : List UserRec) (uid : Nat) :
    Except AppError (List UserRec × UserRec) :=
  match findById db uid with
  | none => .error (.notFound ("No user found with id " ++ toString uid))
  | some user =>
    let u2 : UserRec := { user with status := "approved" }
    .ok (saveUser db u2, u2)

/-- The `disapproveUser` controller (admin.js, lines 115-148): set
`status` to "disapproved" and record the reason, defaulting when the
body carries none. -/
def disapproveUser (db : List UserRec) (uid : Nat) (reason : Option String) :
    Except AppError (List UserRec × UserRec) :=
  match findById db uid with
  | none => .error (.notFound ("No user found with id " ++ toString uid))
  | some user =>
    let u2 : UserRec :=
      { user with
        status := "disapproved",
        disapprovalReason :=
          some (if truthy reason then reason.getD "" else "No reason provided") }
    .ok (saveUser db u2, u2)

structure AdminUpdateBody where
  firstName : Option String := none
  middleName : Option String := none
  lastName : Option String := none
  email : Option String := none
  phone : Option String := none
  role : Option String := none
  sex : Option String := none
  schoolId : Option String := none
  licenseId : Option String := none
  approved : Option Bool := none
deriving DecidableEq

/-- The administrative `updateUser` controller (admin.js, lines 151-226).
Every plain field — `licenseId` included — is assigned raw on a bare
`!== undefined` check (line 179: no trimming, uppercasing or length
validation); email and role keep their fallible source order. -/
def updateUser (db : List UserRec) (uid : Nat) (b : AdminUpdateBody) :
    Except AppError (List UserRec × UserRec) :=
  match findById db uid with
  | none => .error (.notFound ("No user found with id " ++ toString uid))
  | some user0 =>
    let u8 : UserRec :=
      { user0 with
        firstName := applyPresent user0.firstName b.firstName,
        middleName := applyPresent user0.middleName b.middleName,
        lastName := applyPresent user0.lastName b.lastName,
        phone := applyPresent user0.phone b.phone,
        schoolId := applyPresent user0.schoolId b.schoolId,
        licenseId := applyPresent user0.licenseId b.licenseId,
        sex := applyPresent user0.sex b.sex,
        approved := b.approved.getD user0.approved }
    let emailStep : Except AppError UserRec :=
      match b.email with
      | some e =>
        if e != u8.email then
          match findOneEmailExcept db e uid with
          | some _ => .error (.badRequest "Email already in use")
          | none => .ok { u8 with email := e }
        else .ok u8
      | none => .ok u8
    match emailStep with
    | .error e => .error e
    | .ok u9 =>
      let roleStep : Except AppError UserRec :=
        match b.role with
        | some r =>
          if r != u9.role then
            if !(["customer", "rider"].contains r) then
              .error (.badRequest "Invalid role. Must be customer or rider")
            else .ok { u9 with role := r }
          else .ok u9
        | none => .ok u9
      match roleStep with
      | .error e => .error e
      | .ok u10 => .ok (saveUser db u10, u10)

/-- The `deleteUser` controller (admin.js, lines 229-257). -/
def deleteUser (db : List UserRec) (uid : Nat) :
    Except AppError (List UserRec × Nat) :=
  match findById db uid with
  | none => .error (.notFound ("No user found with id " ++ toString uid))
  | some _ => .ok (db.filter (fun v => v.id != uid), uid)

/- ### admin-login route (routes/auth.js, lines 19-59) -/

inductive AdminLoginResult where
  /-- The 401 response `{message: "Invalid credentials"}`, returned both
  when no admin account carries the email and when the password compare
  fails. -/
  | invalid
  /-- The 200 response `{message, user, access_token, refresh_token}`. -/
  | ok (user : UserRec) (access refresh : Token)
deriving DecidableEq

/-- The `/auth/admin-login` route handler. -/
def adminLogin (verify : String → String → Bool) (db : List UserRec)
    (email password : String) : AdminLoginResult :=
  match findOneEmailRole db email "admin" with
  | none => .invalid
  | some admin =>
    if !(verify password admin.password) then .invalid
    else .ok admin (createAccessToken admin) (createRefreshToken admin)

/- ### Response serialization

`res.json(...)` payloads as JSON trees, so that field-presence properties
(no password hash, only id/phone/role in the first-contact user object)
can be stated over the serialized form. -/

inductive JVal where
  | null : JVal
  | str : String → JVal
  | num : Nat → JVal
  | bool : Bool → JVal
  | arr : List JVal → JVal
  | obj : List (String × JVal) → JVal

mutual

/-- All object keys occurring anywhere in a JSON tree, outermost first. -/
def JVal.keys : JVal → List String
  | .null => []
  | .str _ => []
  | .num _ => []
  | .bool _ => []
  | .arr vs => keysArr vs
  | .obj fs => keysObj fs

def keysArr : List JVal → List String
  | [] => []
  | v :: vs => v.keys ++ keysArr vs

def keysObj : List (String × JVal) → List String
  | [] => []
  | (k, v) :: fs => k :: (v.keys ++ keysObj fs)

end

def optStr : Option String → JVal
  | none => .null
  | some s => .str s

/-- The serialized (signature + payload) form of a JWT — an opaque
bearer string. -/
def tokenStr (t : Token) : String :=
  (match t.kind with
   | .access => "access."
   | .refresh => "refresh.") ++ toString t.userId

/-- Modelled from the spec: JSON serialization of a full Account document
(models/User.js is not among the shown sources).  The spec fixes the one
property that matters here: the password is "stored only as a verifiable
hash, never returned to callers" and "a password hash is never serialized
in any response payload", so the document serializes every stored field
except the password hash.  A field the document lacks serializes as null. -/
def userToJSON (u : UserRec) : JVal :=
  .obj [("_id", .num u.id), ("email", .str u.email), ("role", .str u.role),
        ("firstName", optStr u.firstName), ("middleName", optStr u.middleName),
        ("lastName", optStr u.lastName), ("phone", optStr u.phone),
        ("schoolId", optStr u.schoolId), ("licenseId", optStr u.licenseId),
        ("sex", optStr u.sex), ("approved", .bool u.approved),
        ("status", .str u.status),
        ("disapprovalReason", optStr u.disapprovalReason),
        ("createdAt", .num u.createdAt)]

/-- Serialization of a document fetched with `select('-password')`: the
password field is excluded by the query projection itself (the exclusion
is in the shown sources), every other stored field serializes bare. -/
def userNoPassJSON (u : UserRec) : JVal :=
  .obj [("_id", .num u.id), ("email", .str u.email), ("role", .str u.role),
        ("firstName", optStr u.firstName), ("middleName", optStr u.middleName),
        ("lastName", optStr u.lastName), ("phone", optStr u.phone),
        ("schoolId", optStr u.schoolId), ("licenseId", optStr u.licenseId),
        ("sex", optStr u.sex), ("approved", .bool u.approved),
        ("status", .str u.status),
        ("disapprovalReason", optStr u.disapprovalReason),
        ("createdAt", .num u.createdAt)]

/-- The body a handler passes to `res.json`; `none` for the branches that
throw instead (auth controller errors propagate to the boundary error
handler, which is outside the shown sources). -/
def respKeys : Option JVal → List String
  | none => []
  | some j => j.keys

def loginRespJVal : LoginResult → Option JVal
  | .err _ => none
  | .forbidden m s a =>
    some (.obj [("message", .str m), ("status", .str s), ("isApproved", .bool a)])
  | .ok u a1 r1 =>
    some (.obj [("message", .str "User logged in successfully"),
                ("user", userToJSON u),
                ("access_token", .str (tokenStr a1)),
                ("refresh_token", .str (tokenStr r1))])

def registerRespJVal (k : RegisterOk) : JVal :=
  .obj [("message", .str "User registered successfully. Your account is pending approval."),
        ("user", userToJSON k.user),
        ("access_token", .str (tokenStr k.access)),
        ("refresh_token", .str (tokenStr k.refresh)),
        ("isApproved", .bool false), ("status", .str "pending")]

def authRespJVal : AuthResult → Option JVal
  | .err _ => none
  | .forbiddenStatus m s a =>
    some (.obj [("message", .str m), ("status", .str s), ("isApproved", .bool a)])
  | .pendingNew m s a slim =>
    some (.obj [("message", .str m), ("status", .str s), ("isApproved", .bool a),
                ("user", .obj [("_id", .num slim.id), ("phone", .str slim.phone),
                               ("role", .str slim.role)])])
  | .ok u a1 r1 =>
    some (.obj [("message", .str "User logged in successfully"),
                ("user", userToJSON u),
                ("access_token", .str (tokenStr a1)),
                ("refresh_token", .str (tokenStr r1))])

def refreshRespJVal (p : Token × Token) : JVal :=
  .obj [("access_token", .str (tokenStr p.1)), ("refresh_token", .str (tokenStr p.2))]

def profileRespJVal (u : UserRec) : JVal :=
  .obj [("user", userNoPassJSON u)]

def updateProfileRespJVal (u : UserRec) : JVal :=
  .obj [("message", .str "Profile updated successfully"), ("user", userNoPassJSON u)]

def adminLoginRespJVal : AdminLoginResult → JVal
  | .invalid => .obj [("message", .str "Invalid credentials")]
  | .ok u a1 r1 =>
    .obj [("message", .str "Admin logged in successfully"),
          ("user", userToJSON u),
          ("access_token", .str (tokenStr a1)),
          ("refresh_token", .str (tokenStr r1))]

def getAllUsersRespJVal (us : List UserRec) : JVal :=
  .obj [("count", .num us.length), ("users", .arr (us.map userNoPassJSON))]

/-- Admin handlers serialize their own errors as `{message}`. -/
def getUserByIdRespJVal : Except AppError UserRec → JVal
  | .error e => .obj [("message", .str e.message)]
  | .ok u => .obj [("user", userNoPassJSON u)]

/-- The `{message, user}` shape shared by the approve, disapprove and
update admin handlers. -/
def adminUserRespJVal (msg : String) : Except AppError (List UserRec × UserRec) → JVal
  | .error e => .obj [("message", .str e.message)]
  | .ok (_, u) => .obj [("message", .str msg), ("user", userNoPassJSON u)]

def deleteRespJVal : Except AppError (List UserRec × Nat) → JVal
  | .error e => .obj [("message", .str e.message)]
  | .ok (_, uid) =>
    .obj [("message", .str "User deleted successfully"), ("userId", .num uid)]

/- ### Helper lemmas -/

lemma keys_optStr (o : Option String) : (optStr o).keys = [] := by
  cases o <;> rfl

lemma keys_null : JVal.null.keys = [] := rfl

lemma keys_str (s : String) : (JVal.str s).keys = [] := rfl

lemma keys_num (n : Nat) : (JVal.num n).keys = [] := rfl

lemma keys_bool (b : Bool) : (JVal.bool b).keys = [] := rfl

lemma keys_arr (vs : List JVal) : (JVal.arr vs).keys = keysArr vs := rfl

lemma keys_obj (fs : List (String × JVal)) : (JVal.obj fs).keys = keysObj fs := rfl

lemma userToJSON_keys (u : UserRec) :
    (userToJSON u).keys =
      ["_id", "email", "role", "firstName", "middleName", "lastName", "phone",
       "schoolId", "licenseId", "sex", "approved", "status",
       "disapprovalReason", "createdAt"] := by
  simp [userToJSON, JVal.keys, keysObj, keys_optStr]

lemma userNoPassJSON_keys (u : UserRec) :
    (userNoPassJSON u).keys =
      ["_id", "email", "role", "firstName", "middleName", "lastName", "phone",
       "schoolId", "licenseId", "sex", "approved", "status",
       "disapprovalReason", "createdAt"] := by
  simp [userNoPassJSON, JVal.keys, keysObj, keys_optStr]

lemma mem_insertDesc {u v : UserRec} {l : List UserRec} :
    u ∈ insertDesc v l ↔ u = v ∨ u ∈ l := by
  induction l with
  | nil => simp [insertDesc]
  | cons w t ih =>
    by_cases h : v.createdAt ≤ w.createdAt
    · simp only [insertDesc, if_pos h, List.mem_cons, ih]
      tauto
    · simp only [insertDesc, if_neg h, List.mem_cons]

lemma mem_sortByCreatedDesc {u : UserRec} {l : List UserRec} :
    u ∈ sortByCreatedDesc l ↔ u ∈ l := by
  induction l with
  | nil => simp [sortByCreatedDesc]
  | cons w t ih => simp [sortByCreatedDesc, mem_insertDesc, ih]

lemma findById_id {db : List UserRec} {uid : Nat} {u : UserRec}
    (h : findById db uid = some u) : u.id = uid := by
  induction db with
  | nil => simp [findById] at h
  | cons w t ih =>
    unfold findById at h
    split at h
    · next heq =>
      cases h
      simpa using heq
    · next => exact ih h

lemma findById_saveUser {db : List UserRec} {uid : Nat} {u : UserRec}
    (w : UserRec) (hu : findById db uid = some u) (hw : w.id = uid) :
    findById (saveUser db w) uid = some w := by
  induction db with
  | nil => simp [findById] at hu
  | cons v t ih =>
    unfold findById at hu
    split at hu
    · next heq =>
      have hv : v.id = uid := by simpa using heq
      simp [saveUser, findById, hv, hw]
    · next hne =>
      have hv : ¬ v.id = uid := by simpa using hne
      have hvw : ¬ v.id = w.id := by rw [hw]; exact hv
      simpa [saveUser, findById, hvw, hv] using ih hu

lemma buildQuery_role (role approved search : Option String) :
    (buildQuery role approved search).role = some (.ne "admin") := rfl

/-- A concrete stored customer account used in witnesses. -/
def custAna : UserRec :=
  { id := 3, email := "ana@x.com", password := "hash3", role := "customer",
    firstName := some "Ana", middleName := none, lastName := some "Cruz",
    phone := some "0916", schoolId := some "S-77", licenseId := none,
    sex := some "F", approved := true, status := "approved",
    disapprovalReason := none, createdAt := 4 }

/-- C4, failing input: the administrative listing does not apply the role
filter conjunctively.  Line 35 of admin.js reassigns the query's role
entry to the admin exclusion after the filter was stored at line 13, so
the built query keeps no trace of the requested role and a listing
filtered on role "rider" still returns a customer account. -/
theorem getAllUsers_role_filter_clobbered :
    buildQuery (some "rider") none none =
      ⟨some (.ne "admin"), none, none⟩ ∧
    getAllUsers [custAna] (some "rider") none none = [custAna] :=
  ⟨rfl, by decide⟩

/-- C8: for every combination of the role, approved and search filters,
no account returned by the administrative listing has role admin — the
final query always carries the admin exclusion in its role entry. -/
theorem getAllUsers_never_returns_admin
    (db : List UserRec) (role approved search : Option String) (u : UserRec)
    (hu : u ∈ getAllUsers db role approved search) : u.role ≠ "admin" := by
  unfold getAllUsers at hu
  rw [mem_sortByCreatedDesc, List.mem_filter] at hu
  obtain ⟨-, hm⟩ := hu
  have hrole : matchesRole (buildQuery role approved search).role u.role = true := by
    simp only [matchesQuery, Bool.and_eq_true] at hm
    exact hm.1.1
  rw [buildQuery_role] at hrole
  simpa [matchesRole] using hrole

theorem getAllUsers_never_returns_admin_witness :
    custAna ∈ getAllUsers [custAna] none none none ∧ custAna.role ≠ "admin" :=
  ⟨by decide, getAllUsers_never_returns_admin [custAna] none none none custAna (by decide)⟩

lemma password_not_in_usersArr (us : List UserRec) :
    "password" ∉ keysArr (us.map userNoPassJSON) := by
  induction us with
  | nil => simp [keysArr]
  | cons u t ih => simp [keysArr, userNoPassJSON_keys, ih]

/-- C5: no serialized response payload of login, register, legacy auth,
token refresh, admin-login, profile read/update, or any administrative
operation carries a "password" key anywhere — the returned account object
never contains the stored password hash. -/
theorem no_password_hash_in_any_payload :
    (∀ r : LoginResult, "password" ∉ respKeys (loginRespJVal r)) ∧
    (∀ k : RegisterOk, "password" ∉ (registerRespJVal k).keys) ∧
    (∀ r : AuthResult, "password" ∉ respKeys (authRespJVal r)) ∧
    (∀ p : Token × Token, "password" ∉ (refreshRespJVal p).keys) ∧
    (∀ r : AdminLoginResult, "password" ∉ (adminLoginRespJVal r).keys) ∧
    (∀ u : UserRec, "password" ∉ (profileRespJVal u).keys) ∧
    (∀ u : UserRec, "password" ∉ (updateProfileRespJVal u).keys) ∧
    (∀ us : List UserRec, "password" ∉ (getAllUsersRespJVal us).keys) ∧
    (∀ r : Except AppError UserRec, "password" ∉ (getUserByIdRespJVal r).keys) ∧
    (∀ m : String, ∀ r : Except AppError (List UserRec × UserRec),
      "password" ∉ (adminUserRespJVal m r).keys) ∧
    (∀ r : Except AppError (List UserRec × Nat), "password" ∉ (deleteRespJVal r).keys) := by
  refine ⟨?_, ?_, ?_, ?_, ?_, ?_, ?_, ?_, ?_, ?_, ?_⟩
  · intro r
    cases r <;>
      simp [loginRespJVal, respKeys, keys_obj, keys_str, keys_bool, keysObj, userToJSON_keys]
  · intro k
    simp [registerRespJVal, keys_obj, keys_str, keys_bool, keysObj, userToJSON_keys]
  · intro r
    cases r <;>
      simp [authRespJVal, respKeys, keys_obj, keys_str, keys_bool, keys_num, keysObj, userToJSON_keys]
  · intro p
    simp [refreshRespJVal, keys_obj, keys_str, keysObj]
  · intro r
    cases r <;>
      simp [adminLoginRespJVal, keys_obj, keys_str, keysObj, userToJSON_keys]
  · intro u
    simp [profileRespJVal, keys_obj, keysObj, userNoPassJSON_keys]
  · intro u
    simp [updateProfileRespJVal, keys_obj, keys_str, keysObj, userNoPassJSON_keys]
  · intro us
    simp [getAllUsersRespJVal, keys_obj, keys_num, keys_arr, keysObj, password_not_in_usersArr]
  · intro r
    cases r <;>
      simp [getUserByIdRespJVal, keys_obj, keys_str, keysObj, userNoPassJSON_keys]
  · intro m r
    rcases r with e | ⟨db2, u⟩ <;>
      simp [adminUserRespJVal, keys_obj, keys_str, keysObj, userNoPassJSON_keys]
  · intro r
    rcases r with e | ⟨db2, uid⟩ <;>
      simp [deleteRespJVal, keys_obj, keys_str, keys_num, keysObj]

/-- A refresh verifier on which every token fails verification. -/
def noRefreshVerify : String → Option Nat := fun _ => none

/-- C6, counterexample: the claim says refreshToken fails with BadRequest
exactly when the refresh_token field is missing and that every present
token failing verification yields the Unauthenticated outcome.  But the
guard is a JavaScript truthiness test, so a present empty-string token
also takes the BadRequest branch, not the Unauthenticated one. -/
theorem refreshToken_present_empty_badrequest :
    refreshToken noRefreshVerify [] (some "") =
      .error (.badRequest "Refresh token is required") := rfl

/-- C6 (amended): refreshToken fails with BadRequest exactly when the
refresh_token field is missing or the empty string; for every present
non-empty token, any verification failure and the embedded id no longer
resolving to an account both produce the single Unauthenticated outcome
with message "Invalid refresh token"; on success a fresh access/refresh
pair for the resolved account is returned. -/
theorem refreshToken_failure_normalization
    (verifyRefresh : String → Option Nat) (db : List UserRec)
    (rt : Option String) :
    (refreshToken verifyRefresh db rt = .error (.badRequest "Refresh token is required") ↔
      rt = none ∨ rt = some "") ∧
    (∀ t, rt = some t → t ≠ "" →
      (verifyRefresh t = none →
        refreshToken verifyRefresh db rt = .error (.unauthenticated "Invalid refresh token")) ∧
      (∀ uid, verifyRefresh t = some uid → findById db uid = none →
        refreshToken verifyRefresh db rt = .error (.unauthenticated "Invalid refresh token")) ∧
      (∀ uid u, verifyRefresh t = some uid → findById db uid = some u →
        refreshToken verifyRefresh db rt = .ok (createAccessToken u, createRefreshToken u))) := by
  constructor
  · constructor
    · intro h
      rcases rt with _ | t
      · exact Or.inl rfl
      · by_cases ht : t = ""
        · exact Or.inr (by rw [ht])
        · exfalso
          rcases hv : verifyRefresh t with _ | uid
          · simp [refreshToken, truthy, ht, hv] at h
          · rcases hf : findById db uid with _ | u <;>
              simp [refreshToken, truthy, ht, hv, hf] at h
    · rintro (rfl | rfl) <;> rfl
  · rintro t rfl ht
    refine ⟨?_, ?_, ?_⟩
    · intro hv
      simp [refreshToken, truthy, ht, hv]
    · intro uid hv hf
      simp [refreshToken, truthy, ht, hv, hf]
    · intro uid u hv hf
      simp [refreshToken, truthy, ht, hv, hf]

/-- A refresh verifier accepting the single token "tok3" for user id 3. -/
def oneTokenVerify : String → Option Nat := fun t => if t == "tok3" then some 3 else none

theorem refreshToken_failure_normalization_witness :
    refreshToken oneTokenVerify [custAna] (some "tok3") =
      .ok (createAccessToken custAna, createRefreshToken custAna) :=
  ((refreshToken_failure_normalization oneTokenVerify [custAna] (some "tok3")).2
    "tok3" rfl (by decide)).2.2 3 custAna rfl rfl

/-- C9: on the legacy phone auth path, a phone with no stored account
creates a new document with the synthesized placeholder email
phone ++ "@temp.ecoride.com", the random throwaway password, and status
"pending", and the 403 pending response serializes exactly the keys
message/status/isApproved and a user object holding only _id, phone and
role — no token, email or password key appears anywhere in the payload. -/
theorem auth_new_phone_pending
    (randomPwd : String) (newId ts : Nat) (db : List UserRec) (p r : String)
    (hp : p ≠ "") (hr : r = "customer" ∨ r = "rider")
    (hfind : findByPhone db p = none) :
    (auth randomPwd newId ts db (some p) (some r)).1 =
      .pendingNew "Account pending approval" "pending" false ⟨newId, p, r⟩ ∧
    (auth randomPwd newId ts db (some p) (some r)).2 =
      db ++ [legacyNewUser p r randomPwd newId ts] ∧
    (legacyNewUser p r randomPwd newId ts).email = p ++ "@temp.ecoride.com" ∧
    (legacyNewUser p r randomPwd newId ts).password = randomPwd ∧
    (legacyNewUser p r randomPwd newId ts).status = "pending" ∧
    respKeys (authRespJVal (auth randomPwd newId ts db (some p) (some r)).1) =
      ["message", "status", "isApproved", "user", "_id", "phone", "role"] ∧
    "access_token" ∉ respKeys (authRespJVal (auth randomPwd newId ts db (some p) (some r)).1) ∧
    "refresh_token" ∉ respKeys (authRespJVal (auth randomPwd newId ts db (some p) (some r)).1) ∧
    "email" ∉ respKeys (authRespJVal (auth randomPwd newId ts db (some p) (some r)).1) ∧
    "password" ∉ respKeys (authRespJVal (auth randomPwd newId ts db (some p) (some r)).1) := by
  have h1 : (auth randomPwd newId ts db (some p) (some r)).1 =
      .pendingNew "Account pending approval" "pending" false ⟨newId, p, r⟩ := by
    rcases hr with h | h <;> subst h <;>
      simp [auth, truthy, hp, hfind, legacyNewUser]
  have h2 : (auth randomPwd newId ts db (some p) (some r)).2 =
      db ++ [legacyNewUser p r randomPwd newId ts] := by
    rcases hr with h | h <;> subst h <;>
      simp [auth, truthy, hp, hfind]
  have hk : respKeys (authRespJVal (auth randomPwd newId ts db (some p) (some r)).1) =
      ["message", "status", "isApproved", "user", "_id", "phone", "role"] := by
    rw [h1]; rfl
  refine ⟨h1, h2, rfl, rfl, rfl, hk, ?_, ?_, ?_, ?_⟩ <;> rw [hk] <;> decide

theorem auth_new_phone_pending_witness :
    (auth "zz8" 11 2 [] (some "0999") (some "customer")).1 =
      .pendingNew "Account pending approval" "pending" false ⟨11, "0999", "customer"⟩ :=
  (auth_new_phone_pending "zz8" 11 2 [] "0999" "customer"
    (by decide) (Or.inl rfl) rfl).1

/-- C10: approveUser rewrites only the status field (to "approved") and
leaves every other stored field — the legacy approved boolean and any
recorded disapprovalReason included — unchanged; consequently an account
disapproved with a reason and then re-approved still carries that reason
and its prior approved flag. -/
theorem approveUser_status_frame
    (db : List UserRec) (uid : Nat) (u : UserRec)
    (hu : findById db uid = some u) :
    (∀ db2 u2, approveUser db uid = .ok (db2, u2) →
      u2.status = "approved" ∧ u2.id = u.id ∧ u2.email = u.email ∧
      u2.password = u.password ∧ u2.role = u.role ∧
      u2.firstName = u.firstName ∧ u2.middleName = u.middleName ∧
      u2.lastName = u.lastName ∧ u2.phone = u.phone ∧
      u2.schoolId = u.schoolId ∧ u2.licenseId = u.licenseId ∧
      u2.sex = u.sex ∧ u2.approved = u.approved ∧
      u2.disapprovalReason = u.disapprovalReason ∧
      u2.createdAt = u.createdAt) ∧
    (∀ reason db1 u1, disapproveUser db uid reason = .ok (db1, u1) →
      ∀ db2 u2, approveUser db1 uid = .ok (db2, u2) →
        u2.status = "approved" ∧
        u2.disapprovalReason =
          some (if truthy reason then reason.getD "" else "No reason provided") ∧
        u2.approved = u.approved) := by
  constructor
  · intro db2 u2 hok
    simp only [approveUser, hu, Except.ok.injEq, Prod.mk.injEq] at hok
    obtain ⟨-, hu2⟩ := hok
    subst hu2
    simp
  · intro reason db1 u1 hdis db2 u2 hok
    simp only [disapproveUser, hu, Except.ok.injEq, Prod.mk.injEq] at hdis
    obtain ⟨hdb1, hu1⟩ := hdis
    subst hu1
    subst hdb1
    have hfind1 :
        findById
          (saveUser db
            { u with
              status := "disapproved",
              disapprovalReason :=
                some (if truthy reason then reason.getD "" else "No reason provided") })
          uid =
        some
          { u with
            status := "disapproved",
            disapprovalReason :=
              some (if truthy reason then reason.getD "" else "No reason provided") } :=
      findById_saveUser _ hu (findById_id hu : u.id = uid)
    simp only [approveUser, hfind1, Except.ok.injEq, Prod.mk.injEq] at hok
    obtain ⟨-, hu2⟩ := hok
    subst hu2
    simp

def anaDis : UserRec :=
  { custAna with status := "disapproved", disapprovalReason := some "spam" }

def anaReapproved : UserRec :=
  { anaDis with status := "approved" }

theorem approveUser_status_frame_witness :
    anaReapproved.status = "approved" ∧
    anaReapproved.disapprovalReason =
      some (if truthy (some "spam") then (some "spam" : Option String).getD ""
            else "No reason provided") ∧
    anaReapproved.approved = custAna.approved :=
  (approveUser_status_frame [custAna] 3 custAna rfl).2 (some "spam")
    [anaDis] anaDis rfl [anaReapproved] anaReapproved rfl

/-- Characterization of the document written by a successful
updateUserProfile call: the truthy-gated fields, the present-gated
fields, the rider licenseId normalization and the email replacement, all
relative to the fetched document. -/
lemma updateUserProfile_ok_user
    {db : List UserRec} {uid : Nat} {u : UserRec} {b : ProfileBody}
    {db2 : List UserRec} {u2 : UserRec}
    (hu : findById db uid = some u)
    (hok : updateUserProfile db uid b = .ok (db2, u2)) :
    u2 = { u with
      firstName := applyTruthy u.firstName b.firstName,
      middleName := applyPresent u.middleName b.middleName,
      lastName := applyTruthy u.lastName b.lastName,
      phone := applyTruthy u.phone b.phone,
      schoolId := applyPresent u.schoolId b.schoolId,
      licenseId := (match b.licenseId with
        | none => u.licenseId
        | some v =>
          if u.role == "rider" && v != "" then some (jsToUpper (jsTrim v))
          else some v),
      sex := applyTruthy u.sex b.sex,
      email := (match b.email with
        | none => u.email
        | some e => if e != "" then e else u.email) } := by
  rcases hbl : b.licenseId with _ | v
  · rcases hbe : b.email with _ | e
    · simp [updateUserProfile, hu, hbl, hbe] at hok
      obtain ⟨-, h2⟩ := hok
      subst h2
      simp [hbl, hbe]
    · by_cases he2 : e = ""
      · subst he2
        simp [updateUserProfile, hu, hbl, hbe] at hok
        obtain ⟨-, h2⟩ := hok
        subst h2
        simp [hbl, hbe]
      · rcases hex : findOneEmailExcept db e uid with _ | w
        · simp [updateUserProfile, hu, hbl, hbe, he2, hex] at hok
          obtain ⟨-, h2⟩ := hok
          subst h2
          simp [hbl, hbe, he2]
        · simp [updateUserProfile, hu, hbl, hbe, he2, hex] at hok
  · by_cases hc : u.role = "rider" ∧ ¬ v = ""
    · by_cases hlen : (jsToUpper (jsTrim v)).length < 4
      · rcases hbe : b.email with _ | e <;>
          simp [updateUserProfile, hu, hbl, hbe, hc.1, hc.2, hlen] at hok
      · rcases hbe : b.email with _ | e
        · simp [updateUserProfile, hu, hbl, hbe, hc.1, hc.2, hlen] at hok
          obtain ⟨-, h2⟩ := hok
          subst h2
          simp [hbl, hbe, hc.1, hc.2, hlen]
        · by_cases he2 : e = ""
          · subst he2
            simp [updateUserProfile, hu, hbl, hbe, hc.1, hc.2, hlen] at hok
            obtain ⟨-, h2⟩ := hok
            subst h2
            simp [hbl, hbe, hc.1, hc.2, hlen]
          · rcases hex : findOneEmailExcept db e uid with _ | w
            · simp [updateUserProfile, hu, hbl, hbe, hc.1, hc.2, hlen, he2, hex] at hok
              obtain ⟨-, h2⟩ := hok
              subst h2
              simp [hbl, hbe, hc.1, hc.2, hlen, he2]
            · simp [updateUserProfile, hu, hbl, hbe, hc.1, hc.2, hlen, he2, hex] at hok
    · rcases hbe : b.email with _ | e
      · simp [updateUserProfile, hu, hbl, hbe, hc] at hok
        obtain ⟨-, h2⟩ := hok
        subst h2
        simp [hbl, hbe, hc]
      · by_cases he2 : e = ""
        · subst he2
          simp [updateUserProfile, hu, hbl, hbe, hc] at hok
          obtain ⟨-, h2⟩ := hok
          subst h2
          simp [hbl, hbe, hc]
        · rcases hex : findOneEmailExcept db e uid with _ | w
          · simp [updateUserProfile, hu, hbl, hbe, hc, he2, hex] at hok
            obtain ⟨-, h2⟩ := hok
            subst h2
            simp [hbl, hbe, hc, he2]
          · simp [updateUserProfile, hu, hbl, hbe, hc, he2, hex] at hok

def custMia : UserRec :=
  { id := 2, email := "mia@x.com", password := "hash2", role := "customer",
    firstName := some "Mia", middleName := some "Q", lastName := some "Lee",
    phone := some "0917", schoolId := some "S-12", licenseId := none,
    sex := some "F", approved := true, status := "approved",
    disapprovalReason := none, createdAt := 9 }

/-- C7, counterexample: the claim puts sex in the group updated whenever
the field is present, including an empty string.  But the source gates
sex behind a truthiness test, so a profile update whose body carries
sex = "" leaves the stored sex (here "F") untouched and returns the
document unchanged. -/
theorem updateUserProfile_sex_empty_skipped :
    updateUserProfile [custMia] 2 { sex := some "" } = .ok ([custMia], custMia) ∧
    custMia.sex = some "F" :=
  ⟨rfl, rfl⟩

/-- C7 (amended): in updateUserProfile, firstName, lastName, phone and
sex are updated only when the supplied value is truthy (present-but-empty
strings are skipped), while middleName, schoolId and licenseId are
updated whenever the field is present in the body, empty string included;
omitted fields are always left unchanged. -/
theorem updateUserProfile_field_semantics
    (db : List UserRec) (uid : Nat) (u : UserRec) (b : ProfileBody)
    (hu : findById db uid = some u)
    (db2 : List UserRec) (u2 : UserRec)
    (hok : updateUserProfile db uid b = .ok (db2, u2)) :
    u2.firstName = (if truthy b.firstName then b.firstName else u.firstName) ∧
    u2.lastName = (if truthy b.lastName then b.lastName else u.lastName) ∧
    u2.phone = (if truthy b.phone then b.phone else u.phone) ∧
    u2.sex = (if truthy b.sex then b.sex else u.sex) ∧
    u2.middleName = (match b.middleName with
      | some v => some v
      | none => u.middleName) ∧
    u2.schoolId = (match b.schoolId with
      | some v => some v
      | none => u.schoolId) ∧
    u2.licenseId = (match b.licenseId with
      | none => u.licenseId
      | some v =>
        if u.role == "rider" && v != "" then some (jsToUpper (jsTrim v))
        else some v) := by
  have h2 := updateUserProfile_ok_user hu hok
  subst h2
  refine ⟨?_, ?_, ?_, ?_, ?_, ?_, ?_⟩ <;>
    simp [applyTruthy, applyPresent]

def miaUpd : UserRec :=
  { custMia with firstName := some "Mya", middleName := some "" }

theorem updateUserProfile_field_semantics_witness :
    miaUpd.firstName =
      (if truthy (some "Mya") then some "Mya" else custMia.firstName) ∧
    miaUpd.lastName = (if truthy none then none else custMia.lastName) ∧
    miaUpd.phone = (if truthy none then none else custMia.phone) ∧
    miaUpd.sex = (if truthy (some "") then some "" else custMia.sex) ∧
    miaUpd.middleName = (match (some "" : Option String) with
      | some v => some v
      | none => custMia.middleName) ∧
    miaUpd.schoolId = (match (none : Option String) with
      | some v => some v
      | none => custMia.schoolId) ∧
    miaUpd.licenseId = (match (none : Option String) with
      | none => custMia.licenseId
      | some v =>
        if custMia.role == "rider" && v != "" then some (jsToUpper (jsTrim v))
        else some v) :=
  updateUserProfile_field_semantics [custMia] 2 custMia
    { firstName := some "Mya", middleName := some "", sex := some "" }
    rfl [miaUpd] miaUpd rfl

def riderSam : UserRec :=
  { id := 1, email := "sam@x.com", password := "hash1", role := "rider",
    firstName := some "Sam", middleName := none, lastName := some "Reyes",
    phone := some "0915", schoolId := none, licenseId := some "OLD1",
    sex := some "M", approved := true, status := "approved",
    disapprovalReason := none, createdAt := 5 }

def regBodyEmptyLic : RegisterBody :=
  { email := some "tess@x.com", password := some "pw", role := some "rider",
    licenseId := some "" }

/-- C3, counterexample: the claim asserts the trim-uppercase-validate
rule on all three licenseId update paths.  The administrative updateUser
stores the supplied value " ab" for a rider raw — neither trimmed,
uppercased, nor rejected although its trimmed form has under 4
characters; and registration with a present-but-empty licenseId stores
"" without failing, although "" has under 4 characters. -/
theorem licenseId_admin_raw_counterexample :
    updateUser [riderSam] 1 { licenseId := some " ab" } =
      .ok ([{ riderSam with licenseId := some " ab" }],
           { riderSam with licenseId := some " ab" }) ∧
    register [] 7 3 regBodyEmptyLic =
      .ok ([newUserDoc regBodyEmptyLic 7 3 (some "")],
           ⟨newUserDoc regBodyEmptyLic 7 3 (some ""),
            createAccessToken (newUserDoc regBodyEmptyLic 7 3 (some "")),
            createRefreshToken (newUserDoc regBodyEmptyLic 7 3 (some ""))⟩) ∧
    (newUserDoc regBodyEmptyLic 7 3 (some "")).licenseId = some "" :=
  ⟨rfl, rfl, rfl⟩

/-- C3 (amended): a non-empty licenseId supplied for a rider is stored
trimmed and uppercased by registration and by profile self-update, and
both fail with BadRequest when the trimmed value has fewer than 4
characters (an empty-string licenseId bypasses the rule); the
administrative updateUser path stores the supplied value unchanged, with
no normalization and no validation. -/
theorem licenseId_normalization_amended :
    (∀ (db : List UserRec) (newId ts : Nat) (b : RegisterBody) (s : String),
      truthy b.email = true → truthy b.password = true → b.role = some "rider" →
      findOneEmail db (b.email.getD "") = none →
      b.licenseId = some s → s ≠ "" →
      ((jsToUpper (jsTrim s)).length < 4 →
        register db newId ts b =
          .error (.badRequest "License ID must be at least 4 characters")) ∧
      (¬ (jsToUpper (jsTrim s)).length < 4 →
        register db newId ts b =
          .ok (db ++ [newUserDoc b newId ts (some (jsToUpper (jsTrim s)))],
               ⟨newUserDoc b newId ts (some (jsToUpper (jsTrim s))),
                createAccessToken (newUserDoc b newId ts (some (jsToUpper (jsTrim s)))),
                createRefreshToken (newUserDoc b newId ts (some (jsToUpper (jsTrim s))))⟩) ∧
        (newUserDoc b newId ts (some (jsToUpper (jsTrim s)))).licenseId =
          some (jsToUpper (jsTrim s)))) ∧
    (∀ (db : List UserRec) (uid : Nat) (u : UserRec) (b : ProfileBody) (s : String),
      findById db uid = some u → u.role = "rider" →
      b.licenseId = some s → s ≠ "" →
      ((jsToUpper (jsTrim s)).length < 4 →
        updateUserProfile db uid b =
          .error (.badRequest "License ID must be at least 4 characters")) ∧
      (∀ db2 u2, updateUserProfile db uid b = .ok (db2, u2) →
        u2.licenseId = some (jsToUpper (jsTrim s)))) ∧
    (∀ (db : List UserRec) (uid : Nat) (u : UserRec) (b : AdminUpdateBody) (s : String),
      findById db uid = some u → b.licenseId = some s →
      b.email = none → b.role = none →
      ∀ db2 u2, updateUser db uid b = .ok (db2, u2) → u2.licenseId = some s) := by
  refine ⟨?_, ?_, ?_⟩
  · intro db newId ts b s he hp hrole hfind hlic hs
    have htr : truthy (some s) = true := by simp [truthy, hs]
    have htr2 : truthy (some "rider") = true := rfl
    constructor
    · intro hlen
      simp [register, he, hp, hrole, hfind, hlic, htr, htr2, hlen]
    · intro hlen
      simp [register, he, hp, hrole, hfind, hlic, htr, htr2, hlen, newUserDoc]
  · intro db uid u b s hu hrole hlic hs
    constructor
    · intro hlen
      simp [updateUserProfile, hu, hlic, hrole, hs, hlen]
    · intro db2 u2 hok
      have h2 := updateUserProfile_ok_user hu hok
      subst h2
      simp [hlic, hrole, hs]
  · intro db uid u b s hu hlic hbe hbr db2 u2 hok
    simp only [updateUser, hu, hbe, hbr, Except.ok.injEq, Prod.mk.injEq] at hok
    obtain ⟨-, h2⟩ := hok
    subst h2
    simp [applyPresent, hlic]

def regSamBody : RegisterBody :=
  { email := some "sam2@x.com", password := some "pw", role := some "rider",
    licenseId := some " ab12 " }

def samUpd : UserRec :=
  { riderSam with licenseId := some "XY34" }

def samRawUpd : UserRec :=
  { riderSam with licenseId := some " cd" }

theorem licenseId_normalization_amended_witness :
    (register [] 7 3 regSamBody =
      .ok ([newUserDoc regSamBody 7 3 (some (jsToUpper (jsTrim " ab12 ")))],
           ⟨newUserDoc regSamBody 7 3 (some (jsToUpper (jsTrim " ab12 "))),
            createAccessToken (newUserDoc regSamBody 7 3 (some (jsToUpper (jsTrim " ab12 ")))),
            createRefreshToken (newUserDoc regSamBody 7 3 (some (jsToUpper (jsTrim " ab12 "))))⟩) ∧
     (newUserDoc regSamBody 7 3 (some (jsToUpper (jsTrim " ab12 ")))).licenseId =
       some (jsToUpper (jsTrim " ab12 "))) ∧
    samUpd.licenseId = some (jsToUpper (jsTrim " xy34 ")) ∧
    samRawUpd.licenseId = some " cd" :=
  ⟨(licenseId_normalization_amended.1 [] 7 3 regSamBody " ab12 "
      rfl rfl rfl rfl rfl (by decide)).2 (by decide),
   (licenseId_normalization_amended.2.1 [riderSam] 1 riderSam
      { licenseId := some " xy34 " } " xy34 " rfl rfl rfl (by decide)).2
      [samUpd] samUpd rfl,
   licenseId_normalization_amended.2.2 [riderSam] 1 riderSam
      { licenseId := some " cd" } " cd" rfl rfl rfl rfl
      [samRawUpd] samRawUpd rfl⟩

end EcoRide
